import Mathlib

/-!
Verification of `validate_form_responses.py` (BraTS data-access batch job).

Shallow embedding: the remote Synapse service and the spreadsheet are an
oracle structure `SynapseEnv`; every modelled Python function returns its
value inside `Except PyErr` (uncaught Python exceptions become `.error`)
paired with the list of external effects it performed, in order.  Effects
performed before an uncaught exception are kept in the list, matching the
fact that real side effects persist when an exception propagates.
-/

namespace BratsAccess

/-- Python exception values relevant to the script, by type and message:
`synapseclient.core.exceptions.SynapseHTTPError`, `ValueError`,
`IndexError`, `TypeError` (raised by `str += None`), and any other
exception type. -/
inductive PyErr where
  | synapseHTTPError (msg : String)
  | valueError (msg : String)
  | indexError (msg : String)
  | typeError (msg : String)
  | otherError (msg : String)
deriving DecidableEq

/-- Equality of `Except` results is decidable when both component types
have decidable equality (needed to evaluate the model on concrete
inputs). -/
instance {ε α : Type} [DecidableEq ε] [DecidableEq α] : DecidableEq (Except ε α)
  | .error a, .error b =>
      decidable_of_iff (a = b) ⟨fun h => by rw [h], fun h => by injection h⟩
  | .error _, .ok _ => isFalse fun h => Except.noConfusion h
  | .ok _, .error _ => isFalse fun h => Except.noConfusion h
  | .ok a, .ok b =>
      decidable_of_iff (a = b) ⟨fun h => by rw [h], fun h => by injection h⟩

/-- Python `str(err)` / `f-string` rendering of an exception. -/
def PyErr.msg : PyErr → String
  | .synapseHTTPError m => m
  | .valueError m => m
  | .indexError m => m
  | .typeError m => m
  | .otherError m => m

/-- One external action of the script, in the order performed:
REST reads of the user index, profile and team lookups, membership
checks, open-invite listing, invite and message writes, rate-limit
sleeps, log-sheet appends and console output. -/
inductive Effect where
  | userGroupQuery (q : String)
  | profileLookup (username : String)
  | teamLookup (name : String)
  | memberCheck (teamId : Nat) (userId : String)
  | openInvitesQuery (teamId : Nat)
  | inviteCall (teamId : Nat) (userId : String)
  | sendMessage (userIds : List String) (subject : String) (body : String)
  | sleep
  | appendRow (row : List String)
  | printed (msg : String)
deriving DecidableEq

/-- Is this effect a notification send (`syn.sendMessage`)? -/
def Effect.isSend : Effect → Bool
  | Effect.sendMessage _ _ _ => true
  | _ => false

/-- Is this effect part of the identifier lookup itself
(the prefix REST query or the direct profile lookup)? -/
def Effect.isIdentifierLookup : Effect → Bool
  | Effect.userGroupQuery _ => true
  | Effect.profileLookup _ => true
  | _ => false

/-- A Synapse user record: the `userName` and `ownerId` fields used by the
script (both the `UserGroupHeader` children of `/userGroupHeaders` and the
result of `syn.getUserProfile` expose these). -/
structure SynUser where
  userName : String
  ownerId : String
deriving DecidableEq

/-- One row of the responses worksheet, restricted to the two columns the
script reads: `Timestamp` and `Synapse Username`. -/
structure Response where
  timestamp : String
  username : String
deriving DecidableEq

/-- One row appended to the logs worksheet by `add_result_to_logs`:
logging time, timestamp of the form response, Synapse username, and the
log message. -/
structure LogRow where
  logged_at : String
  original_timestamp : String
  username : String
  result : String
deriving DecidableEq

/-- Oracle for the external world: what each remote call returns for each
argument.  `.error` means the call raises that Python exception.
`now` is the wall-clock string used by `add_result_to_logs`. -/
structure SynapseEnv where
  userGroupHeaders : String → Except PyErr (List SynUser)
  getUserProfile : String → Except PyErr SynUser
  getTeam : String → Except PyErr String
  member : Nat → String → Except PyErr Unit
  openInvitations : Nat → List String
  inviteToTeam : Nat → String → Except PyErr Unit
  now : String

-- Configuration constants of the script.

def CHALLENGE_NAME : String := "BraTS-Lighthouse 2025"

def CHALLENGE_TEAM_ID : Nat := 3523569

def DATA_ACCESS_TEAM_ID : Nat := 3523636

def tplAccess : String :=
  "You have already joined the BraTS Data Access Team. To download " ++
  "the data, please go to the 'Files' tab of the challenge website."

def tplPending : String :=
  "An email invite to join the BraTS Data Access Team has already been " ++
  "sent.  Please check your inbox or spam folder for an email from the " ++
  "BraTS Bot account (brats-fets-bot@synapse.org)."

def tplMissing : String :=
  "You must first register and agree to the Terms & Conditions of the " ++
  "latest BraTS Challenge:<br/><br/>> " ++ CHALLENGE_NAME ++ "<br/><br/>If you " ++
  "are still interested in gaining access to the data, please register " ++
  "for the challenge listed above, then re-submit the Google Form."

/-- The `EMAIL_TEMPLATES` dict, as an association list in source order. -/
def EMAIL_TEMPLATES : List (String × String) :=
  [("Access already granted", tplAccess),
   ("Pending invite", tplPending),
   ("Missing registration", tplMissing)]

/-- Python `EMAIL_TEMPLATES.get(key)`: `some` value or `none`. -/
def templatesGet (key : String) : Option String :=
  (EMAIL_TEMPLATES.find? fun kv => kv.1 = key).map fun kv => kv.2

/-- Message of the `TypeError` raised by `message += None` when an outcome
label is missing from `EMAIL_TEMPLATES`. -/
def typeErrorNoneMsg : String :=
  "unsupported operand type(s) for +=: 'str' and 'NoneType'"

-- String helpers modelling the Python builtins used by the script
-- (restricted to ASCII, which is all the script's own literals use).

/-- Python `str.isdigit()`: nonempty and all characters are digits. -/
def pyIsDigit (s : String) : Bool :=
  !s.isEmpty && s.data.all Char.isDigit

/-- Whitespace characters removed by Python `str.strip()`. -/
def isPySpace (c : Char) : Bool :=
  c = ' ' || c = '\t' || c = '\n' || c = '\r' || c = '\x0b' || c = '\x0c'

/-- Python `str.strip()` on a character list: drop leading and trailing
whitespace. -/
def pyStripList (l : List Char) : List Char :=
  ((l.dropWhile isPySpace).reverse.dropWhile isPySpace).reverse

/-- Python `str.strip()`. -/
def pyStrip (s : String) : String :=
  String.mk (pyStripList s.data)

/-- Python `needle in haystack` on strings (substring test). -/
def strContains (haystack needle : String) : Bool :=
  decide (needle.data <:+: haystack.data)

-- The script's functions, one Lean definition per Python definition.

/-- Source `add_result_to_logs(wks, original_timestamp, username, result)`:
appends the four-column row to the logs worksheet.  Returns the row
appended (the worksheet's new state is the effect). -/
def add_result_to_logs (env : SynapseEnv) (original_timestamp username result : String) :
    LogRow × List Effect :=
  let row : LogRow := ⟨env.now, original_timestamp, username, result⟩
  (row, [Effect.appendRow [env.now, original_timestamp, username, result]])

/-- Source `send_invalid_email(username, user_id, err_level)`: the subject is
built from the level, the body concatenates the greeting, the value of
`EMAIL_TEMPLATES.get(err_level)` and the signature.  When the level is not a
key of `EMAIL_TEMPLATES`, `get` yields `None` and `message += None` raises
`TypeError` before any message is sent. -/
def send_invalid_email (_env : SynapseEnv) (username user_id err_level : String) :
    Except PyErr Unit × List Effect :=
  let subject := "BraTS Data Access Form - " ++ err_level
  match templatesGet err_level with
  | none => (.error (.typeError typeErrorNoneMsg), [])
  | some tpl =>
      let message := "Dear " ++ username ++ ",<br/><br/>" ++ tpl ++
        "<br/><br/>Sincerely,<br/>BraTS Bot"
      (.ok (), [Effect.sendMessage [user_id] subject message, Effect.sleep])

/-- Source `send_email_invite(team_id, user_id)`: tries
`syn.invite_to_team`; on success the outcome is `"Invite sent"` followed by
the rate-limit sleep, on any exception the outcome is the descriptive
error string (the `except Exception` clause catches everything). -/
def send_email_invite (env : SynapseEnv) (team_id : Nat) (user_id : String) :
    String × List Effect :=
  match env.inviteToTeam team_id user_id with
  | .ok _ => ("Invite sent", [Effect.inviteCall team_id user_id, Effect.sleep])
  | .error err => ("Error sending invite: " ++ err.msg, [Effect.inviteCall team_id user_id])

/-- Source `is_team_member(team_id, user_id)`: a successful
`syn.restGET(f"/team/{team_id}/member/{user_id}")` means membership; a
`SynapseHTTPError` of any shape is caught and means `False`; every other
exception propagates. -/
def is_team_member (env : SynapseEnv) (team_id : Nat) (user_id : String) :
    Except PyErr Bool × List Effect :=
  match env.member team_id user_id with
  | .ok _ => (.ok true, [Effect.memberCheck team_id user_id])
  | .error (.synapseHTTPError _) => (.ok false, [Effect.memberCheck team_id user_id])
  | .error e => (.error e, [Effect.memberCheck team_id user_id])

/-- Source `get_open_invites(team_id)`: the invitee ids of the team's open
invitations. -/
def get_open_invites (env : SynapseEnv) (team_id : Nat) : List String × List Effect :=
  (env.openInvitations team_id, [Effect.openInvitesQuery team_id])

/-- The `except SynapseHTTPError as err` handler of `is_valid_synapse_user`
(source lines 77-81): when `str(err)` contains "UserProfile cannot be
found", it looks the name up as a team and emails that team with level
"Username not provided" (both calls may raise, and the raise propagates);
in every non-raising case the handler returns `None`.  `eff0` is the
effect of the lookup attempt that raised. -/
def handleSynapseHTTPError (env : SynapseEnv) (username msg : String) (eff0 : List Effect) :
    Except PyErr (Option SynUser) × List Effect :=
  if strContains msg "UserProfile cannot be found" then
    match env.getTeam username with
    | .error e => (.error e, eff0 ++ [Effect.teamLookup username])
    | .ok team_id =>
        match send_invalid_email env username team_id "Username not provided" with
        | (.error e, eff1) => (.error e, eff0 ++ [Effect.teamLookup username] ++ eff1)
        | (.ok _, eff1) => (.ok none, eff0 ++ [Effect.teamLookup username] ++ eff1)
  else (.ok none, eff0)

/-- Source `is_valid_synapse_user(username)`: a digits-only identifier goes
through `/userGroupHeaders?prefix=...` and takes element `[0]` of the
children whose `userName` equals the identifier (`IndexError` on no exact
match is caught and yields `None`); any other identifier goes through
`syn.getUserProfile`.  `SynapseHTTPError` is handled by
`handleSynapseHTTPError`; `ValueError` and `IndexError` yield `None`;
other exceptions propagate. -/
def is_valid_synapse_user (env : SynapseEnv) (username : String) :
    Except PyErr (Option SynUser) × List Effect :=
  if pyIsDigit username then
    match env.userGroupHeaders username with
    | .ok children =>
        match children.filter (fun u => u.userName = username) with
        | [] => (.ok none, [Effect.userGroupQuery username])
        | u :: _ => (.ok (some u), [Effect.userGroupQuery username])
    | .error (.synapseHTTPError m) =>
        handleSynapseHTTPError env username m [Effect.userGroupQuery username]
    | .error (.valueError _) => (.ok none, [Effect.userGroupQuery username])
    | .error (.indexError _) => (.ok none, [Effect.userGroupQuery username])
    | .error e => (.error e, [Effect.userGroupQuery username])
  else
    match env.getUserProfile username with
    | .ok p => (.ok (some p), [Effect.profileLookup username])
    | .error (.synapseHTTPError m) =>
        handleSynapseHTTPError env username m [Effect.profileLookup username]
    | .error (.valueError _) => (.ok none, [Effect.profileLookup username])
    | .error (.indexError _) => (.ok none, [Effect.profileLookup username])
    | .error e => (.error e, [Effect.profileLookup username])

/-- The tail of `validate_response` (source lines 171-175): when the result
is not `"Invite sent"`, `send_invalid_email` runs before the result is
returned (and its `TypeError` for a template-less result propagates). -/
def finishResult (env : SynapseEnv) (submitted_username syn_userid result : String)
    (eff : List Effect) : Except PyErr String × List Effect :=
  if result ≠ "Invite sent" then
    match send_invalid_email env submitted_username syn_userid result with
    | (.error e, eff4) => (.error e, eff ++ eff4)
    | (.ok _, eff4) => (.ok result, eff ++ eff4)
  else (.ok result, eff)

/-- Source `validate_response(response, open_invites)`: strips the
submitted identifier, resolves it, then runs the ordered membership and
invite checks, and finishes through `finishResult`. -/
def validate_response (env : SynapseEnv) (response : Response) (open_invites : List String) :
    Except PyErr String × List Effect :=
  let submitted_username := pyStrip response.username
  match is_valid_synapse_user env submitted_username with
  | (.error e, eff0) => (.error e, eff0)
  | (.ok none, eff0) => (.ok "Username not found", eff0)
  | (.ok (some profile), eff0) =>
      let syn_userid := profile.ownerId
      match is_team_member env DATA_ACCESS_TEAM_ID syn_userid with
      | (.error e, eff1) => (.error e, eff0 ++ eff1)
      | (.ok true, eff1) =>
          finishResult env submitted_username syn_userid "Access already granted" (eff0 ++ eff1)
      | (.ok false, eff1) =>
          match is_team_member env CHALLENGE_TEAM_ID syn_userid with
          | (.error e, eff2) => (.error e, eff0 ++ eff1 ++ eff2)
          | (.ok true, eff2) =>
              if syn_userid ∈ open_invites then
                finishResult env submitted_username syn_userid "Pending invite"
                  (eff0 ++ eff1 ++ eff2)
              else
                let ie := send_email_invite env DATA_ACCESS_TEAM_ID syn_userid
                finishResult env submitted_username syn_userid ie.1
                  (eff0 ++ eff1 ++ eff2 ++ ie.2)
          | (.ok false, eff2) =>
              finishResult env submitted_username syn_userid "Missing registration"
                (eff0 ++ eff1 ++ eff2)

-- The dedup merge of `main` (source lines 205-210), modelled as the
-- pandas left merge with indicator, then the left_only filter.

/-- One log-sheet row restricted to the two dedup columns
(`Original Request Timestamp`, `Synapse Username`). -/
abbrev LogPair := String × String

/-- The merge key of a response: its (`Timestamp`, `Synapse Username`). -/
def responsePair (r : Response) : LogPair :=
  (r.timestamp, r.username)

/-- The dedup columns of an appended log row. -/
def logPairOf (w : LogRow) : LogPair :=
  (w.original_timestamp, w.username)

/-- Pandas merge tag (the `_merge` indicator column): with `how="left"`
only `both` and `left_only` occur. -/
inductive MergeTag where
  | both
  | leftOnly
deriving DecidableEq

/-- `responses_df.merge(logs_df.rename(...), on=["Timestamp", "Synapse
Username"], how="left", indicator=True)`: each left row yields one output
row per matching log pair (tagged `both`), or a single row tagged
`left_only` when no log pair matches.  Left order is preserved. -/
def leftMergeIndicator (responses : List Response) (logPairs : List LogPair) :
    List (Response × MergeTag) :=
  responses.flatMap fun r =>
    match logPairs.filter (fun l => l = responsePair r) with
    | [] => [(r, MergeTag.leftOnly)]
    | ms => ms.map fun _ => (r, MergeTag.both)

/-- `.query('_merge == "left_only"')` over the merge, keeping the response
columns: the unprocessed responses. -/
def new_responses (responses : List Response) (logPairs : List LogPair) : List Response :=
  ((leftMergeIndicator responses logPairs).filter fun rt => rt.2 = MergeTag.leftOnly).map
    fun rt => rt.1

/-- The batch loop of `main` (source lines 216-220): validate each new
response in order, appending a log row after each; an uncaught exception
aborts the loop (rows already appended stay appended). -/
def processAll (env : SynapseEnv) (invites : List String) :
    List Response → Except PyErr Unit × List LogRow × List Effect
  | [] => (.ok (), [], [])
  | r :: rest =>
      match validate_response env r invites with
      | (.error e, effs) => (.error e, [], effs)
      | (.ok msg, effs) =>
          let ra := add_result_to_logs env r.timestamp r.username msg
          let pr := processAll env invites rest
          (pr.1, ra.1 :: pr.2.1, effs ++ ra.2 ++ pr.2.2)

/-- Source `main()`, after the two worksheets have been fetched: compute
the unprocessed responses; when none, print and stop; otherwise fetch the
open invites of the data-access team once and run the batch loop.
Returns the run's status, the log rows appended, and all effects. -/
def main_run (env : SynapseEnv) (responses : List Response) (logPairs : List LogPair) :
    Except PyErr Unit × List LogRow × List Effect :=
  let newr := new_responses responses logPairs
  if newr.isEmpty then (.ok (), [], [Effect.printed "No new responses"])
  else
    let oi := get_open_invites env DATA_ACCESS_TEAM_ID
    let pr := processAll env oi.1 newr
    (pr.1, pr.2.1, oi.2 ++ pr.2.2)

/-!
Helper lemmas: per-stage characterizations of the modelled functions,
shared by the claim theorems below.
-/

/-- The first character of an invite-failure outcome string is `E`. -/
theorem errorString_head (m : String) :
    ("Error sending invite: " ++ m).data.head? = some 'E' := by
  show ("Error sending invite: ".data ++ m.data).head? = some 'E'
  rfl

/-- A string whose first character is not `E` differs from every
invite-failure outcome string. -/
theorem errorString_ne (m k : String) (hk : k.data.head? ≠ some 'E') :
    k ≠ "Error sending invite: " ++ m := by
  intro h
  exact hk (h ▸ errorString_head m)

/-- No invite-failure outcome string is a key of `EMAIL_TEMPLATES`. -/
theorem templatesGet_errorString (m : String) :
    templatesGet ("Error sending invite: " ++ m) = none := by
  have h1 : ("Access already granted" : String) ≠ "Error sending invite: " ++ m :=
    errorString_ne m _ (by decide)
  have h2 : ("Pending invite" : String) ≠ "Error sending invite: " ++ m :=
    errorString_ne m _ (by decide)
  have h3 : ("Missing registration" : String) ≠ "Error sending invite: " ++ m :=
    errorString_ne m _ (by decide)
  simp [templatesGet, EMAIL_TEMPLATES, List.find?, h1, h2, h3]

/-- `send_invalid_email` with a label that is a template key: one message
send and one sleep, no exception. -/
theorem send_invalid_email_some (env : SynapseEnv) (u uid lvl tpl : String)
    (h : templatesGet lvl = some tpl) :
    send_invalid_email env u uid lvl =
      (.ok (), [Effect.sendMessage [uid] ("BraTS Data Access Form - " ++ lvl)
        ("Dear " ++ u ++ ",<br/><br/>" ++ tpl ++ "<br/><br/>Sincerely,<br/>BraTS Bot"),
        Effect.sleep]) := by
  simp only [send_invalid_email, h]

/-- `send_invalid_email` with a label that is not a template key raises
`TypeError` before sending anything. -/
theorem send_invalid_email_none (env : SynapseEnv) (u uid lvl : String)
    (h : templatesGet lvl = none) :
    send_invalid_email env u uid lvl = (.error (.typeError typeErrorNoneMsg), []) := by
  simp only [send_invalid_email, h]

/-- `finishResult` on a non-"Invite sent" result with a template: returns
the result after one notification send. -/
theorem finishResult_notify (env : SynapseEnv) (su uid res : String) (eff : List Effect)
    (tpl : String) (hne : res ≠ "Invite sent") (h : templatesGet res = some tpl) :
    finishResult env su uid res eff =
      (.ok res, eff ++ [Effect.sendMessage [uid] ("BraTS Data Access Form - " ++ res)
        ("Dear " ++ su ++ ",<br/><br/>" ++ tpl ++ "<br/><br/>Sincerely,<br/>BraTS Bot"),
        Effect.sleep]) := by
  unfold finishResult
  rw [if_pos hne, send_invalid_email_some env su uid res tpl h]

/-- `finishResult` on "Invite sent": no notification step. -/
theorem finishResult_invite (env : SynapseEnv) (su uid : String) (eff : List Effect) :
    finishResult env su uid "Invite sent" eff = (.ok "Invite sent", eff) := by
  unfold finishResult
  rw [if_neg (by simp)]

/-- `finishResult` on a non-"Invite sent" result without a template:
raises the `TypeError` of the notification step. -/
theorem finishResult_noTemplate (env : SynapseEnv) (su uid res : String) (eff : List Effect)
    (hne : res ≠ "Invite sent") (h : templatesGet res = none) :
    finishResult env su uid res eff = (.error (.typeError typeErrorNoneMsg), eff ++ []) := by
  unfold finishResult
  rw [if_pos hne, send_invalid_email_none env su uid res h]

/-- A membership check performs exactly its REST call. -/
theorem is_team_member_effects (env : SynapseEnv) (t : Nat) (uid : String) :
    (is_team_member env t uid).2 = [Effect.memberCheck t uid] := by
  unfold is_team_member
  cases h : env.member t uid with
  | ok _ => rfl
  | error e => cases e <;> rfl

/-- `send_email_invite` either succeeds with "Invite sent" (invite call
plus sleep) or yields the descriptive error string (invite call only). -/
theorem send_email_invite_cases (env : SynapseEnv) (t : Nat) (uid : String) :
    send_email_invite env t uid = ("Invite sent", [Effect.inviteCall t uid, Effect.sleep])
    ∨ ∃ m, send_email_invite env t uid =
        ("Error sending invite: " ++ m, [Effect.inviteCall t uid]) := by
  unfold send_email_invite
  cases env.inviteToTeam t uid with
  | ok _ => left; rfl
  | error e => right; exact ⟨e.msg, rfl⟩

/-- A non-raising return of the `SynapseHTTPError` handler is `None` with
no effect beyond those of the failed lookup. -/
theorem handle_ok (env : SynapseEnv) (u m : String) (eff0 l : List Effect)
    (x : Option SynUser) (h : handleSynapseHTTPError env u m eff0 = (.ok x, l)) :
    x = none ∧ l = eff0 := by
  unfold handleSynapseHTTPError at h
  split at h
  · cases hg : env.getTeam u with
    | error e => simp only [hg] at h; simp at h
    | ok tid =>
        simp only [hg] at h
        rw [send_invalid_email_none env u tid "Username not provided" rfl] at h
        simp at h
  · injection h with h1 h2
    injection h1 with h1
    exact ⟨h1.symm, h2.symm⟩

/-- A non-raising identifier resolution performs exactly one lookup call:
the numeric prefix query or the direct profile lookup. -/
theorem is_valid_ok_effects (env : SynapseEnv) (u : String) (x : Option SynUser)
    (l : List Effect) (h : is_valid_synapse_user env u = (.ok x, l)) :
    l = [Effect.userGroupQuery u] ∨ l = [Effect.profileLookup u] := by
  unfold is_valid_synapse_user at h
  split at h
  · cases hq : env.userGroupHeaders u with
    | ok children =>
        simp only [hq] at h
        cases hf : children.filter (fun v => decide (v.userName = u)) with
        | nil => simp only [hf] at h; injection h with h1 h2; left; exact h2.symm
        | cons w ws => simp only [hf] at h; injection h with h1 h2; left; exact h2.symm
    | error e =>
        simp only [hq] at h
        cases e with
        | synapseHTTPError m => left; exact (handle_ok env u m _ l x h).2
        | valueError m => injection h with h1 h2; left; exact h2.symm
        | indexError m => injection h with h1 h2; left; exact h2.symm
        | typeError m => simp at h
        | otherError m => simp at h
  · cases hq : env.getUserProfile u with
    | ok p =>
        simp only [hq] at h
        injection h with h1 h2
        right; exact h2.symm
    | error e =>
        simp only [hq] at h
        cases e with
        | synapseHTTPError m => right; exact (handle_ok env u m _ l x h).2
        | valueError m => injection h with h1 h2; right; exact h2.symm
        | indexError m => injection h with h1 h2; right; exact h2.symm
        | typeError m => simp at h
        | otherError m => simp at h

/-- A resolution that completes with no account makes `validate_response`
return "Username not found" with exactly the resolution's effects. -/
theorem validate_response_of_resolve_none (env : SynapseEnv) (r : Response)
    (inv : List String) (l : List Effect)
    (h : is_valid_synapse_user env (pyStrip r.username) = (.ok none, l)) :
    validate_response env r inv = (.ok "Username not found", l) := by
  simp only [validate_response, h]

/-- Case analysis on every non-raising run of `validate_response`: the
outcome is "Username not found" with only lookup effects and no message
send, or one of the three notified labels with a message send, or
"Invite sent" with no message send.  (An invite failure never returns:
its notification step raises.) -/
theorem validate_response_ok_cases (env : SynapseEnv) (r : Response) (inv : List String)
    (out : String) (effs : List Effect)
    (h : validate_response env r inv = (.ok out, effs)) :
    (out = "Username not found" ∧ effs.all Effect.isIdentifierLookup = true
      ∧ effs.any Effect.isSend = false)
    ∨ ((out = "Access already granted" ∨ out = "Pending invite" ∨ out = "Missing registration")
      ∧ effs.any Effect.isSend = true)
    ∨ (out = "Invite sent" ∧ effs.any Effect.isSend = false) := by
  simp only [validate_response] at h
  cases hv : is_valid_synapse_user env (pyStrip r.username) with
  | mk vres veff =>
    simp only [hv] at h
    cases vres with
    | error e => simp at h
    | ok xo =>
      cases xo with
      | none =>
          injection h with h1 h2
          injection h1 with h1
          subst h1; subst h2
          rcases is_valid_ok_effects env _ none veff hv with hve | hve <;> subst hve <;>
            exact Or.inl ⟨rfl, rfl, rfl⟩
      | some profile =>
          cases hm1 : is_team_member env DATA_ACCESS_TEAM_ID profile.ownerId with
          | mk m1 e1 =>
            have he1 : e1 = [Effect.memberCheck DATA_ACCESS_TEAM_ID profile.ownerId] := by
              have hx := is_team_member_effects env DATA_ACCESS_TEAM_ID profile.ownerId
              rw [hm1] at hx
              exact hx
            cases m1 with
            | error e => simp [hm1] at h
            | ok b =>
              cases b with
              | true =>
                  simp only [hm1] at h
                  rw [finishResult_notify env _ _ "Access already granted" _ tplAccess (by decide) rfl] at h
                  injection h with h1 h2
                  injection h1 with h1
                  subst h1; subst h2
                  refine Or.inr (Or.inl ⟨Or.inl rfl, ?_⟩)
                  simp [List.any_append, Effect.isSend]
              | false =>
                cases hm2 : is_team_member env CHALLENGE_TEAM_ID profile.ownerId with
                | mk m2 e2 =>
                  have he2 : e2 = [Effect.memberCheck CHALLENGE_TEAM_ID profile.ownerId] := by
                    have hx := is_team_member_effects env CHALLENGE_TEAM_ID profile.ownerId
                    rw [hm2] at hx
                    exact hx
                  cases m2 with
                  | error e => simp [hm1, hm2] at h
                  | ok b2 =>
                    cases b2 with
                    | false =>
                        simp only [hm1, hm2] at h
                        rw [finishResult_notify env _ _ "Missing registration" _ tplMissing (by decide) rfl] at h
                        injection h with h1 h2
                        injection h1 with h1
                        subst h1; subst h2
                        refine Or.inr (Or.inl ⟨Or.inr (Or.inr rfl), ?_⟩)
                        simp [List.any_append, Effect.isSend]
                    | true =>
                        simp only [hm1, hm2] at h
                        split at h
                        · rw [finishResult_notify env _ _ "Pending invite" _ tplPending (by decide) rfl] at h
                          injection h with h1 h2
                          injection h1 with h1
                          subst h1; subst h2
                          refine Or.inr (Or.inl ⟨Or.inr (Or.inl rfl), ?_⟩)
                          simp [List.any_append, Effect.isSend]
                        · rcases send_email_invite_cases env DATA_ACCESS_TEAM_ID profile.ownerId
                            with hs | ⟨mm, hs⟩ <;> simp only [hs] at h
                          · rw [finishResult_invite] at h
                            injection h with h1 h2
                            injection h1 with h1
                            subst h1; subst h2
                            refine Or.inr (Or.inr ⟨rfl, ?_⟩)
                            subst he1; subst he2
                            rcases is_valid_ok_effects env _ _ veff hv with hve | hve <;>
                              subst hve <;> rfl
                          · rw [finishResult_noTemplate env _ _ _ _
                              (Ne.symm (errorString_ne mm "Invite sent" (by decide)))
                              (templatesGet_errorString mm)] at h
                            simp at h

/-- The left merge followed by the `left_only` filter equals a plain
filter: keep exactly the responses whose merge key is absent from the log
pairs, in table order. -/
theorem new_responses_eq_filter (responses : List Response) (logPairs : List LogPair) :
    new_responses responses logPairs =
      responses.filter fun r => decide (responsePair r ∉ logPairs) := by
  induction responses with
  | nil => rfl
  | cons r rest ih =>
      unfold new_responses leftMergeIndicator
      unfold new_responses leftMergeIndicator at ih
      rw [List.flatMap_cons, List.filter_append, List.map_append, ih]
      cases hf : logPairs.filter (fun l => decide (l = responsePair r)) with
      | nil =>
          have hmem : responsePair r ∉ logPairs := by
            intro hin
            have := (List.filter_eq_nil_iff.mp hf) (responsePair r) hin
            simp at this
          rw [List.filter_cons]
          simp [hmem]
      | cons m ms =>
          have hm : m ∈ logPairs.filter (fun l => decide (l = responsePair r)) := by
            rw [hf]; exact List.mem_cons_self m ms
          have hmem : responsePair r ∈ logPairs := by
            rcases List.mem_filter.mp hm with ⟨hin, heq⟩
            simp only [decide_eq_true_eq] at heq
            exact heq ▸ hin
          rw [List.filter_cons]
          have hnone : ((m :: ms).map fun _ => (r, MergeTag.both)).filter
              (fun rt => decide (rt.2 = MergeTag.leftOnly)) = [] := by
            apply List.filter_eq_nil_iff.mpr
            intro a ha
            rcases List.mem_map.mp ha with ⟨_, _, rfl⟩
            simp
          simp [hmem, hnone]

/-- Every completed batch loop appends one row per processed response, in
order, each carrying the response's timestamp and identifier as its dedup
pair. -/
theorem processAll_ok_rows (env : SynapseEnv) (invites : List String)
    (lst : List Response) (rows : List LogRow) (effs : List Effect)
    (h : processAll env invites lst = (.ok (), rows, effs)) :
    rows.map logPairOf = lst.map responsePair := by
  induction lst generalizing rows effs with
  | nil =>
      unfold processAll at h
      injection h with h1 h2
      injection h2 with h2 h3
      subst h2
      rfl
  | cons r rest ih =>
      unfold processAll at h
      cases hv : validate_response env r invites with
      | mk vr veff =>
        cases vr with
        | error e => simp [hv] at h
        | ok msg =>
            simp only [hv, add_result_to_logs] at h
            cases hp : processAll env invites rest with
            | mk p1 p2 =>
              cases p2 with
              | mk prow peff =>
                simp only [hp] at h
                injection h with h1 h2
                injection h2 with h2 h3
                subst h1; subst h2
                simp only [List.map_cons]
                rw [ih prow peff hp]
                rfl

/-- Every completed run appends rows whose dedup pairs are exactly the
merge keys of the unprocessed responses, in order. -/
theorem main_run_ok_rows (env : SynapseEnv) (responses : List Response)
    (logPairs : List LogPair) (rows : List LogRow) (effs : List Effect)
    (h : main_run env responses logPairs = (.ok (), rows, effs)) :
    rows.map logPairOf = (new_responses responses logPairs).map responsePair := by
  simp only [main_run] at h
  split at h
  · rename_i hempty
    injection h with h1 h2
    injection h2 with h2 h3
    subst h2
    rw [List.isEmpty_iff.mp hempty]
    rfl
  · cases hp : processAll env (get_open_invites env DATA_ACCESS_TEAM_ID).1
        (new_responses responses logPairs) with
    | mk p1 p2 =>
      cases p2 with
      | mk prow peff =>
        simp only [hp] at h
        injection h with h1 h2
        injection h2 with h2 h3
        subst h1; subst h2
        exact processAll_ok_rows env _ _ prow peff hp

-- Lemmas about Python `strip`.

/-- Dropping while `p` skips over a leading block that satisfies `p`. -/
theorem dropWhile_append_all {p : Char → Bool} {l1 l2 : List Char}
    (h : l1.all p = true) : (l1 ++ l2).dropWhile p = l2.dropWhile p := by
  induction l1 with
  | nil => rfl
  | cons c cs ih =>
      simp only [List.all_cons, Bool.and_eq_true] at h
      rw [List.cons_append, List.dropWhile_cons, if_pos h.1]
      exact ih h.2

/-- Dropping while `p` over `u ++ sp'` with `sp'` all-`p`: either `u`
degenerates entirely, or the drop stops inside `u`. -/
theorem dropWhile_append_right_all {p : Char → Bool} {u sp' : List Char}
    (h' : sp'.all p = true) :
    (u ++ sp').dropWhile p =
      if (u.dropWhile p).isEmpty then [] else u.dropWhile p ++ sp' := by
  induction u with
  | nil =>
      simp only [List.nil_append, List.dropWhile_nil, List.isEmpty_nil, if_true]
      have hx := @dropWhile_append_all p sp' [] h'
      rwa [List.append_nil] at hx
  | cons c cs ih =>
      rw [List.cons_append, List.dropWhile_cons, List.dropWhile_cons]
      by_cases hc : p c = true
      · rw [if_pos hc, if_pos hc]
        exact ih
      · rw [if_neg hc, if_neg hc]
        simp [List.isEmpty_cons]

/-- Python `strip` ignores surrounding whitespace-only padding. -/
theorem pyStripList_pad (sp u sp' : List Char) (h : sp.all isPySpace = true)
    (h' : sp'.all isPySpace = true) :
    pyStripList (sp ++ u ++ sp') = pyStripList u := by
  unfold pyStripList
  rw [List.append_assoc, dropWhile_append_all h, dropWhile_append_right_all h']
  by_cases he : (u.dropWhile isPySpace).isEmpty
  · rw [if_pos he, List.isEmpty_iff.mp he]
  · rw [if_neg he, List.reverse_append,
      dropWhile_append_all (by rw [List.all_reverse]; exact h')]

/-- String form of `pyStripList_pad`. -/
theorem pyStrip_pad (sp u sp' : String) (h : sp.data.all isPySpace = true)
    (h' : sp'.data.all isPySpace = true) :
    pyStrip (sp ++ u ++ sp') = pyStrip u := by
  unfold pyStrip
  rw [show (sp ++ u ++ sp').data = sp.data ++ u.data ++ sp'.data from rfl,
    pyStripList_pad sp.data u.data sp'.data h h']

/-- `validate_response` reads the response only through the stripped
identifier. -/
theorem validate_response_username_congr (env : SynapseEnv) (inv : List String)
    (r r' : Response) (hs : pyStrip r.username = pyStrip r'.username) :
    validate_response env r inv = validate_response env r' inv := by
  unfold validate_response
  rw [hs]

/-- A membership check whose REST call raises anything other than a
`SynapseHTTPError` propagates the exception. -/
theorem is_team_member_error_propagates (env : SynapseEnv) (t : Nat) (uid : String)
    (e : PyErr) (hm : env.member t uid = .error e)
    (hne : ∀ s, e ≠ PyErr.synapseHTTPError s) :
    is_team_member env t uid = (.error e, [Effect.memberCheck t uid]) := by
  unfold is_team_member
  rw [hm]
  cases e with
  | synapseHTTPError s => exact absurd rfl (hne s)
  | valueError s => rfl
  | indexError s => rfl
  | typeError s => rfl
  | otherError s => rfl

/-- A label that `EMAIL_TEMPLATES.get` resolves is one of the three keys. -/
theorem templatesGet_some_keys (lvl tpl : String) (h : templatesGet lvl = some tpl) :
    lvl = "Access already granted" ∨ lvl = "Pending invite" ∨ lvl = "Missing registration" := by
  rcases eq_or_ne "Access already granted" lvl with he | hne1
  · exact Or.inl he.symm
  rcases eq_or_ne "Pending invite" lvl with he | hne2
  · exact Or.inr (Or.inl he.symm)
  rcases eq_or_ne "Missing registration" lvl with he | hne3
  · exact Or.inr (Or.inr he.symm)
  exfalso
  simp [templatesGet, EMAIL_TEMPLATES, List.find?, hne1, hne2, hne3] at h

/-!
Concrete environments used by witnesses and counterexamples.
-/

/-- Service state where no identifier resolves (a `SynapseHTTPError`
without the "UserProfile cannot be found" text). -/
def envUnknownUser : SynapseEnv where
  userGroupHeaders := fun _ => .ok []
  getUserProfile := fun _ => .error (.synapseHTTPError "could not resolve user")
  getTeam := fun _ => .error (.synapseHTTPError "team not found")
  member := fun _ _ => .error (.synapseHTTPError "404 not found")
  openInvitations := fun _ => []
  inviteToTeam := fun _ _ => .ok ()
  now := "01/01/2026 00:00:00"

/-- Service state where profile lookup raises the documented
"UserProfile cannot be found" error and the identifier names a team. -/
def envNotFoundTeam : SynapseEnv where
  userGroupHeaders := fun _ => .ok []
  getUserProfile := fun _ => .error (.synapseHTTPError "404: UserProfile cannot be found")
  getTeam := fun _ => .ok "9999"
  member := fun _ _ => .error (.synapseHTTPError "404 not found")
  openInvitations := fun _ => []
  inviteToTeam := fun _ _ => .error (.otherError "unused")
  now := "01/01/2026 00:00:00"

/-- Service state where "bob" resolves, is a challenge-team member only,
and the invite call fails. -/
def envInviteFails : SynapseEnv where
  userGroupHeaders := fun _ => .ok []
  getUserProfile := fun u =>
    if u = "bob" then .ok ⟨"bob", "B1"⟩ else .error (.synapseHTTPError "could not resolve user")
  getTeam := fun _ => .error (.synapseHTTPError "team not found")
  member := fun t _ =>
    if t = CHALLENGE_TEAM_ID then .ok () else .error (.synapseHTTPError "404 not a member")
  openInvitations := fun _ => []
  inviteToTeam := fun _ _ => .error (.otherError "service unavailable")
  now := "01/01/2026 00:00:00"

/-- Service state where "alice" resolves and every membership REST call
raises a non-HTTP-error exception. -/
def envConnReset : SynapseEnv where
  userGroupHeaders := fun _ => .ok []
  getUserProfile := fun u =>
    if u = "alice" then .ok ⟨"alice", "A1"⟩ else .error (.synapseHTTPError "could not resolve user")
  getTeam := fun _ => .error (.synapseHTTPError "team not found")
  member := fun _ _ => .error (.otherError "connection reset")
  openInvitations := fun _ => []
  inviteToTeam := fun _ _ => .ok ()
  now := "01/01/2026 00:00:00"

/-- Service state where every membership REST call raises a
`SynapseHTTPError` with a 500 (server error) shape. -/
def envHttp500 : SynapseEnv where
  userGroupHeaders := fun _ => .ok []
  getUserProfile := fun u => .ok ⟨u, "A1"⟩
  getTeam := fun _ => .error (.synapseHTTPError "team not found")
  member := fun _ _ => .error (.synapseHTTPError "500 Server Error")
  openInvitations := fun _ => []
  inviteToTeam := fun _ _ => .ok ()
  now := "01/01/2026 00:00:00"

/-- Service state with a populated numeric user index and a resolvable
alphabetic profile. -/
def envLookup : SynapseEnv where
  userGroupHeaders := fun q =>
    if q = "123" then .ok [⟨"123", "A7"⟩, ⟨"1234", "A8"⟩] else .ok []
  getUserProfile := fun u =>
    if u = "alice" then .ok ⟨"alice", "A2"⟩ else .error (.synapseHTTPError "could not resolve user")
  getTeam := fun _ => .error (.synapseHTTPError "team not found")
  member := fun _ _ => .error (.synapseHTTPError "404 not found")
  openInvitations := fun _ => []
  inviteToTeam := fun _ _ => .ok ()
  now := "01/01/2026 00:00:00"

/-!
The claim theorems.
-/

/-- C1 (amended): for every classification that returns an outcome, a
notification is sent iff the outcome is neither "Invite sent" nor
"Username not found"; and an outcome of "Username not found" carries no
effect beyond the identifier lookup itself (in particular no notification
and no other external action).  The amendment restricts the claim to
classifications that return: a resolution failing through the service's
"UserProfile cannot be found" error performs a team lookup and a
notification attempt that raises, producing no outcome at all (see the
counterexample). -/
theorem claim_C1_notification_gating (env : SynapseEnv) (r : Response) (inv : List String)
    (out : String) (effs : List Effect)
    (h : validate_response env r inv = (.ok out, effs)) :
    (effs.any Effect.isSend = true ↔ (out ≠ "Invite sent" ∧ out ≠ "Username not found"))
    ∧ (out = "Username not found" → effs.all Effect.isIdentifierLookup = true) := by
  rcases validate_response_ok_cases env r inv out effs h with
    ⟨ho, hall, hany⟩ | ⟨ho, hany⟩ | ⟨ho, hany⟩
  · subst ho
    refine ⟨?_, fun _ => hall⟩
    rw [hany]
    constructor
    · intro hx; exact absurd hx (by decide)
    · intro hx; exact absurd rfl hx.2
  · refine ⟨?_, ?_⟩
    · rw [hany]
      constructor
      · intro _
        rcases ho with ho | ho | ho <;> subst ho <;> exact ⟨by decide, by decide⟩
      · intro _; rfl
    · intro hx
      rcases ho with ho | ho | ho <;> subst ho <;> exact absurd hx (by decide)
  · subst ho
    refine ⟨?_, fun hx => absurd hx (by decide)⟩
    rw [hany]
    constructor
    · intro hx; exact absurd hx (by decide)
    · intro hx; exact absurd rfl hx.1

/-- C1 witness: a response whose identifier resolution completes with no
account is classified "Username not found"; its effect list is the lookup
alone, so the gating equivalence instantiates with both sides false. -/
theorem claim_C1_witness :
    (([Effect.profileLookup "ghost"] : List Effect).any Effect.isSend = true ↔
      (("Username not found" : String) ≠ "Invite sent"
        ∧ ("Username not found" : String) ≠ "Username not found"))
    ∧ ([Effect.profileLookup "ghost"] : List Effect).all Effect.isIdentifierLookup = true := by
  have h := claim_C1_notification_gating envUnknownUser ⟨"t1", "ghost"⟩ []
    "Username not found" [Effect.profileLookup "ghost"] rfl
  exact ⟨h.1, h.2 rfl⟩

/-- C1 counterexample: with the service raising "UserProfile cannot be
found" for the identifier "ghost" (which names a team), the identifier
fails to resolve, yet classification does not produce the outcome
"Username not found": it raises the notification step's `TypeError`, after
performing a team lookup — an external action beyond the identifier
lookup. -/
theorem claim_C1_counterexample :
    (validate_response envNotFoundTeam ⟨"t1", "ghost"⟩ []).1 ≠ .ok "Username not found"
    ∧ (validate_response envNotFoundTeam ⟨"t1", "ghost"⟩ []).1
        = .error (.typeError typeErrorNoneMsg)
    ∧ Effect.teamLookup "ghost" ∈ (validate_response envNotFoundTeam ⟨"t1", "ghost"⟩ []).2 := by
  decide

/-- C2: at the failing input — a resolvable challenge member whose invite
call fails — the run raises the `TypeError` of `message += None` (the
outcome string "Error sending invite: ..." is not an `EMAIL_TEMPLATES`
key), so no notification is sent, no log row is appended, and processing
does not continue. -/
theorem claim_C2_invite_failure_crash :
    (main_run envInviteFails [⟨"t1", "bob"⟩] []).1 = .error (.typeError typeErrorNoneMsg)
    ∧ (main_run envInviteFails [⟨"t1", "bob"⟩] []).2.1 = []
    ∧ (main_run envInviteFails [⟨"t1", "bob"⟩] []).2.2.any Effect.isSend = false := by
  decide

/-- C3 (amended): a failing membership REST call is treated as "not a
member" whenever the raised exception is of the service's HTTP-error
class, whatever its shape; only exceptions outside that class propagate
out of classification and abort the remaining batch. -/
theorem claim_C3_membership_errors (env : SynapseEnv) (team : Nat) (uid m : String)
    (e : PyErr) (r : Response) (inv : List String) (rest : List Response) (p : SynUser)
    (l : List Effect) :
    (env.member team uid = .error (.synapseHTTPError m) →
      is_team_member env team uid = (.ok false, [Effect.memberCheck team uid]))
    ∧ (env.member team uid = .error e → (∀ s, e ≠ PyErr.synapseHTTPError s) →
      is_team_member env team uid = (.error e, [Effect.memberCheck team uid]))
    ∧ (is_valid_synapse_user env (pyStrip r.username) = (.ok (some p), l) →
      env.member DATA_ACCESS_TEAM_ID p.ownerId = .error e →
      (∀ s, e ≠ PyErr.synapseHTTPError s) →
      (validate_response env r inv).1 = .error e)
    ∧ ((validate_response env r inv).1 = .error e →
      processAll env inv (r :: rest) = (.error e, [], (validate_response env r inv).2)) := by
  refine ⟨?_, ?_, ?_, ?_⟩
  · intro hm
    unfold is_team_member
    rw [hm]
  · intro hm hne
    exact is_team_member_error_propagates env team uid e hm hne
  · intro hv hm hne
    simp only [validate_response, hv, is_team_member_error_propagates env
      DATA_ACCESS_TEAM_ID p.ownerId e hm hne]
  · intro hvr
    cases hv2 : validate_response env r inv with
    | mk a b =>
      have ha : a = .error e := by rw [hv2] at hvr; exact hvr
      subst ha
      unfold processAll
      rw [hv2]

/-- C3 witness: a membership check raising a non-HTTP exception
("connection reset") propagates out of the check, out of classification,
and aborts the batch with no row logged. -/
theorem claim_C3_witness :
    is_team_member envConnReset DATA_ACCESS_TEAM_ID "A1" =
      (.error (.otherError "connection reset"), [Effect.memberCheck DATA_ACCESS_TEAM_ID "A1"])
    ∧ (validate_response envConnReset ⟨"t1", "alice"⟩ []).1 = .error (.otherError "connection reset")
    ∧ processAll envConnReset [] [⟨"t1", "alice"⟩] =
      (.error (.otherError "connection reset"), [],
        (validate_response envConnReset ⟨"t1", "alice"⟩ []).2) := by
  have hne : ∀ s, PyErr.otherError "connection reset" ≠ PyErr.synapseHTTPError s :=
    fun s hs => PyErr.noConfusion hs
  have h := claim_C3_membership_errors envConnReset DATA_ACCESS_TEAM_ID "A1" ""
    (.otherError "connection reset") ⟨"t1", "alice"⟩ [] [] ⟨"alice", "A1"⟩
    [Effect.profileLookup "alice"]
  exact ⟨h.2.1 rfl hne, h.2.2.1 rfl rfl hne, h.2.2.2 (h.2.2.1 rfl rfl hne)⟩

/-- C3 counterexample: a membership REST call failing with a 500-shaped
`SynapseHTTPError` — not the documented "not found" shape — is still
treated as "not a member" and does not propagate: classification
completes with "Missing registration". -/
theorem claim_C3_counterexample :
    is_team_member envHttp500 DATA_ACCESS_TEAM_ID "A1" =
      (.ok false, [Effect.memberCheck DATA_ACCESS_TEAM_ID "A1"])
    ∧ (validate_response envHttp500 ⟨"t1", "carol"⟩ []).1 = .ok "Missing registration" := by
  decide

/-- C4: the unprocessed responses computed before the batch loop are
exactly the responses whose (timestamp, identifier) pair does not occur
among the log's (original timestamp, identifier) pairs, produced in the
responses table's row order (the merge-then-filter equals one stable
filter of the responses list). -/
theorem claim_C4_unprocessed_set (responses : List Response) (logPairs : List LogPair) :
    new_responses responses logPairs =
      responses.filter fun r => decide (responsePair r ∉ logPairs) :=
  new_responses_eq_filter responses logPairs

/-- C5: after one completed run, the appended log rows correspond one to
one, in order, to the responses whose pair was absent from the log, each
row carrying the source response's timestamp and identifier as its
(original timestamp, identifier) fields. -/
theorem claim_C5_log_completeness (env : SynapseEnv) (responses : List Response)
    (logPairs : List LogPair) (rows : List LogRow) (effs : List Effect)
    (h : main_run env responses logPairs = (.ok (), rows, effs)) :
    rows.map logPairOf =
      (responses.filter fun r => decide (responsePair r ∉ logPairs)).map responsePair := by
  rw [main_run_ok_rows env responses logPairs rows effs h, new_responses_eq_filter]

/-- C5 witness: a one-response table against an empty log appends exactly
one row whose dedup pair is the response's pair. -/
theorem claim_C5_witness :
    ([⟨"01/01/2026 00:00:00", "t1", "ghost", "Username not found"⟩] : List LogRow).map logPairOf =
      (([⟨"t1", "ghost"⟩] : List Response).filter
        fun r => decide (responsePair r ∉ ([] : List LogPair))).map responsePair :=
  claim_C5_log_completeness envUnknownUser [⟨"t1", "ghost"⟩] []
    [⟨"01/01/2026 00:00:00", "t1", "ghost", "Username not found"⟩]
    [Effect.openInvitesQuery DATA_ACCESS_TEAM_ID, Effect.profileLookup "ghost",
      Effect.appendRow ["01/01/2026 00:00:00", "t1", "ghost", "Username not found"]] rfl

/-- C6: a second run over the same responses, with the log as the first
completed run left it, takes the empty no-op path: no log row is appended
and no external call is made (the only effect is the console message). -/
theorem claim_C6_idempotence (env env2 : SynapseEnv) (responses : List Response)
    (logPairs : List LogPair) (rows : List LogRow) (effs : List Effect)
    (h : main_run env responses logPairs = (.ok (), rows, effs)) :
    main_run env2 responses (logPairs ++ rows.map logPairOf) =
      (.ok (), [], [Effect.printed "No new responses"]) := by
  have hrows := main_run_ok_rows env responses logPairs rows effs h
  have hempty : new_responses responses (logPairs ++ rows.map logPairOf) = [] := by
    rw [new_responses_eq_filter]
    apply List.filter_eq_nil_iff.mpr
    intro r hr
    simp only [decide_eq_true_eq, not_not]
    rw [List.mem_append]
    by_cases hin : responsePair r ∈ logPairs
    · exact Or.inl hin
    · right
      rw [hrows]
      refine List.mem_map.mpr ⟨r, ?_, rfl⟩
      rw [new_responses_eq_filter]
      exact List.mem_filter.mpr ⟨hr, by simp only [decide_eq_true_eq]; exact hin⟩
  simp [main_run, hempty]

/-- C6 witness: re-running the one-response batch with the appended row's
pair in the log logs nothing new and performs no external call. -/
theorem claim_C6_witness :
    main_run envUnknownUser [⟨"t1", "ghost"⟩]
      (([] : List LogPair) ++
        ([⟨"01/01/2026 00:00:00", "t1", "ghost", "Username not found"⟩] : List LogRow).map logPairOf) =
      (.ok (), [], [Effect.printed "No new responses"]) :=
  claim_C6_idempotence envUnknownUser envUnknownUser [⟨"t1", "ghost"⟩] []
    [⟨"01/01/2026 00:00:00", "t1", "ghost", "Username not found"⟩]
    [Effect.openInvitesQuery DATA_ACCESS_TEAM_ID, Effect.profileLookup "ghost",
      Effect.appendRow ["01/01/2026 00:00:00", "t1", "ghost", "Username not found"]] rfl

/-- C7: a purely numeric identifier resolves through the prefix-search
endpoint, taking the first child whose user name exactly equals the
identifier (`head?` of the exact-match filter; `none` when no exact match
exists); a non-numeric identifier resolves through the direct profile
lookup. -/
theorem claim_C7_resolution_shapes (env : SynapseEnv) (u : String) (children : List SynUser)
    (p : SynUser) :
    (pyIsDigit u = true → env.userGroupHeaders u = .ok children →
      is_valid_synapse_user env u =
        (.ok ((children.filter fun v => v.userName = u).head?), [Effect.userGroupQuery u]))
    ∧ (pyIsDigit u = false → env.getUserProfile u = .ok p →
      is_valid_synapse_user env u = (.ok (some p), [Effect.profileLookup u])) := by
  constructor
  · intro hd hq
    simp only [is_valid_synapse_user, hd, hq, if_true]
    cases hf : children.filter (fun v => decide (v.userName = u)) with
    | nil => simp [hf]
    | cons w ws => simp [hf]
  · intro hd hp2
    simp only [is_valid_synapse_user, hd, hp2, Bool.false_eq_true, if_false]

/-- C7 witness: "123" (digits only) resolves via the prefix search to the
exact match among two children; "alice" resolves via the direct profile
lookup. -/
theorem claim_C7_witness :
    pyIsDigit "123" = true
    ∧ is_valid_synapse_user envLookup "123" =
        (.ok ((([⟨"123", "A7"⟩, ⟨"1234", "A8"⟩] : List SynUser).filter
          fun v => v.userName = "123").head?), [Effect.userGroupQuery "123"])
    ∧ is_valid_synapse_user envLookup "alice" =
        (.ok (some ⟨"alice", "A2"⟩), [Effect.profileLookup "alice"]) := by
  refine ⟨rfl, ?_, ?_⟩
  · exact (claim_C7_resolution_shapes envLookup "123"
      [⟨"123", "A7"⟩, ⟨"1234", "A8"⟩] ⟨"alice", "A2"⟩).1 rfl rfl
  · exact (claim_C7_resolution_shapes envLookup "alice" [] ⟨"alice", "A2"⟩).2 rfl rfl

/-- C8 (amended): every classification that returns an outcome returns
exactly one of the five resolvable-case labels or "Username not found",
and when resolution completed with no account the outcome is "Username
not found".  The amendment conditions the claim on classification
returning: classification can instead raise (the notification step's
`TypeError` after an invite failure, a "UserProfile cannot be found"
resolution error, or a propagated service exception), producing no
outcome. -/
theorem claim_C8_outcome_range (env : SynapseEnv) (r : Response) (inv : List String)
    (out : String) (effs : List Effect)
    (h : validate_response env r inv = (.ok out, effs)) :
    (out = "Access already granted" ∨ out = "Pending invite" ∨ out = "Missing registration"
      ∨ out = "Invite sent" ∨ (∃ c, out = "Error sending invite: " ++ c)
      ∨ out = "Username not found")
    ∧ (∀ l, is_valid_synapse_user env (pyStrip r.username) = (.ok none, l) →
        out = "Username not found") := by
  constructor
  · rcases validate_response_ok_cases env r inv out effs h with
      ⟨ho, _, _⟩ | ⟨ho, _⟩ | ⟨ho, _⟩
    · exact Or.inr (Or.inr (Or.inr (Or.inr (Or.inr ho))))
    · rcases ho with ho | ho | ho
      · exact Or.inl ho
      · exact Or.inr (Or.inl ho)
      · exact Or.inr (Or.inr (Or.inl ho))
    · exact Or.inr (Or.inr (Or.inr (Or.inl ho)))
  · intro l hl
    have hx := validate_response_of_resolve_none env r inv l hl
    rw [hx] at h
    injection h with h1 h2
    injection h1 with h1
    exact h1.symm

/-- C8 witness: an unresolvable identifier's returned outcome instantiates
the range at "Username not found". -/
theorem claim_C8_witness :
    (("Username not found" : String) = "Access already granted"
      ∨ ("Username not found" : String) = "Pending invite"
      ∨ ("Username not found" : String) = "Missing registration"
      ∨ ("Username not found" : String) = "Invite sent"
      ∨ (∃ c, ("Username not found" : String) = "Error sending invite: " ++ c)
      ∨ ("Username not found" : String) = "Username not found")
    ∧ ("Username not found" : String) = "Username not found" := by
  have h := claim_C8_outcome_range envUnknownUser ⟨"t1", "ghost"⟩ []
    "Username not found" [Effect.profileLookup "ghost"] rfl
  exact ⟨h.1, h.2 [Effect.profileLookup "ghost"] rfl⟩

/-- C8 counterexample: for an unresolvable identifier that raises the
"UserProfile cannot be found" error, classification returns nothing at
all — it raises a `TypeError` — so it does not return "Username not
found" (nor any of the five labels). -/
theorem claim_C8_counterexample :
    (validate_response envNotFoundTeam ⟨"t2", "phantom"⟩ []).1
        = .error (.typeError typeErrorNoneMsg)
    ∧ (validate_response envNotFoundTeam ⟨"t2", "phantom"⟩ []).1 ≠ .ok "Username not found" := by
  decide

/-- C9: the submitted identifier is stripped before any lookup, so
classification of an identifier padded with whitespace equals
classification of the unpadded identifier, while the log row appended for
a response records the identifier exactly as submitted (and the
response's own timestamp). -/
theorem claim_C9_strip_and_log (env : SynapseEnv) (inv : List String) (t sp u sp' : String)
    (r : Response) (rest : List Response) (res : Except PyErr Unit) (row : LogRow)
    (rows : List LogRow) (effs : List Effect)
    (h1 : sp.data.all isPySpace = true) (h2 : sp'.data.all isPySpace = true)
    (h3 : processAll env inv (r :: rest) = (res, row :: rows, effs)) :
    validate_response env ⟨t, sp ++ u ++ sp'⟩ inv = validate_response env ⟨t, u⟩ inv
    ∧ row.original_timestamp = r.timestamp ∧ row.username = r.username := by
  refine ⟨?_, ?_⟩
  · exact validate_response_username_congr env inv _ _ (pyStrip_pad sp u sp' h1 h2)
  · unfold processAll at h3
    cases hv : validate_response env r inv with
    | mk vr veff =>
      cases vr with
      | error e => simp [hv] at h3
      | ok msg =>
          simp only [hv, add_result_to_logs] at h3
          injection h3 with ha hb
          injection hb with hb hc
          injection hb with hrow hrows
          rw [← hrow]
          exact ⟨rfl, rfl⟩

/-- C9 witness: padding "ghost" with spaces does not change its
classification, and the logged row keeps the padded identifier verbatim
with the original timestamp. -/
theorem claim_C9_witness :
    validate_response envUnknownUser ⟨"t1", " " ++ "ghost" ++ " "⟩ [] =
      validate_response envUnknownUser ⟨"t1", "ghost"⟩ []
    ∧ (⟨"01/01/2026 00:00:00", "t1", " ghost ", "Username not found"⟩ : LogRow).original_timestamp
        = "t1"
    ∧ (⟨"01/01/2026 00:00:00", "t1", " ghost ", "Username not found"⟩ : LogRow).username
        = " ghost " :=
  claim_C9_strip_and_log envUnknownUser [] "t1" " " "ghost" " " ⟨"t1", " ghost "⟩ [] (.ok ())
    ⟨"01/01/2026 00:00:00", "t1", " ghost ", "Username not found"⟩ []
    [Effect.profileLookup "ghost",
      Effect.appendRow ["01/01/2026 00:00:00", "t1", " ghost ", "Username not found"]]
    (by decide) (by decide) rfl

/-- C10: the notification step builds its body from the fixed three-entry
template table and completes without raising exactly when the outcome
label is one of the three canned keys; for every other label the body
construction fails (the `TypeError` of `message += None`). -/
theorem claim_C10_notification_templates (env : SynapseEnv) (u uid lvl : String) :
    ((send_invalid_email env u uid lvl).1 = .ok () ↔
      (lvl = "Access already granted" ∨ lvl = "Pending invite" ∨ lvl = "Missing registration"))
    ∧ (∀ tpl, templatesGet lvl = some tpl →
      send_invalid_email env u uid lvl =
        (.ok (), [Effect.sendMessage [uid] ("BraTS Data Access Form - " ++ lvl)
          ("Dear " ++ u ++ ",<br/><br/>" ++ tpl ++ "<br/><br/>Sincerely,<br/>BraTS Bot"),
          Effect.sleep])) := by
  constructor
  · constructor
    · intro hok
      cases htg : templatesGet lvl with
      | none =>
          rw [send_invalid_email_none env u uid lvl htg] at hok
          simp at hok
      | some tpl => exact templatesGet_some_keys lvl tpl htg
    · intro hk
      rcases hk with hk | hk | hk <;> subst hk
      · rw [send_invalid_email_some env u uid "Access already granted" tplAccess rfl]
      · rw [send_invalid_email_some env u uid "Pending invite" tplPending rfl]
      · rw [send_invalid_email_some env u uid "Missing registration" tplMissing rfl]
  · intro tpl htg
    exact send_invalid_email_some env u uid lvl tpl htg

/-- C10 witness: the "Pending invite" label completes with exactly its
canned body; the equivalence instantiates with both sides true. -/
theorem claim_C10_witness :
    ((send_invalid_email envUnknownUser "bob" "B1" "Pending invite").1 = .ok () ↔
      (("Pending invite" : String) = "Access already granted"
        ∨ ("Pending invite" : String) = "Pending invite"
        ∨ ("Pending invite" : String) = "Missing registration"))
    ∧ send_invalid_email envUnknownUser "bob" "B1" "Pending invite" =
        (.ok (), [Effect.sendMessage ["B1"] ("BraTS Data Access Form - " ++ "Pending invite")
          ("Dear " ++ "bob" ++ ",<br/><br/>" ++ tplPending ++ "<br/><br/>Sincerely,<br/>BraTS Bot"),
          Effect.sleep]) := by
  have h := claim_C10_notification_templates envUnknownUser "bob" "B1" "Pending invite"
  exact ⟨h.1, h.2 tplPending rfl⟩

end BratsAccess
